import Mathlib

/-!
Verification of the OMaa parenting-companion chat service.

The embedding below follows the JavaScript sources:

* `ai-service.js` — the Conversation Store (`conversationHistory`,
  `saveChatHistory`, `addToHistory`, the `sendMessage` failure path);
* `server.js` — the Anthropic request builder (`callAnthropic`);
* the local trial-counter `SubscriptionService` variant
  (`canSendMessage`, `isTrialExpired`, `hasActiveSubscription`);
* the remote-verification `subscription-service.js`
  (`init`, `verifyAccess`, `canSendMessage`, `recordMessage`,
  `getPaywallReason`).

State that in the browser lives in `localStorage`, the URL, or on `this`
is passed explicitly; network calls become a `FetchResult` parameter.
-/

/-! ## Conversation Store (`ai-service.js`) -/

/-- A `{ role, content }` message object. -/
structure ChatMessage where
  role : String
  content : String
deriving DecidableEq, Repr

/-- `AI_CONFIG.chatSettings.maxHistoryMessages` (ai-config): the default cap. -/
def maxHistoryMessages : Nat := 20

/-- JavaScript `arr.slice(-n)`: for `n > 0` the last `min n arr.length`
elements; `arr.slice(-0)` is `arr.slice(0)`, the whole array. -/
def jsSliceNeg (l : List ChatMessage) (n : Nat) : List ChatMessage :=
  if n = 0 then l else l.drop (l.length - n)

/-- `AIService.saveChatHistory` (ai-service.js:34-45): truncate to the last
`maxMessages` entries when over the cap, then persist. -/
def saveChatHistory (maxMessages : Nat) (hist : List ChatMessage) : List ChatMessage :=
  if hist.length > maxMessages then jsSliceNeg hist maxMessages else hist

/-- `AIService.addToHistory` (ai-service.js:58-61): push then save. -/
def addToHistory (maxMessages : Nat) (hist : List ChatMessage)
    (role content : String) : List ChatMessage :=
  saveChatHistory maxMessages (hist ++ [⟨role, content⟩])

/-- A sequence of `addToHistory` calls, one per message. -/
def addAll (maxMessages : Nat) (hist : List ChatMessage)
    (msgs : List ChatMessage) : List ChatMessage :=
  msgs.foldl (fun h m => addToHistory maxMessages h m.role m.content) hist

/-- The `catch` branch of `AIService.sendMessage` (ai-service.js:103-108)
after the user message was appended: `conversationHistory.pop()` then
`saveChatHistory()`. -/
def sendMessageFailed (maxMessages : Nat) (hist : List ChatMessage)
    (userMessage : String) : List ChatMessage :=
  saveChatHistory maxMessages (addToHistory maxMessages hist "user" userMessage).dropLast

theorem take_append_take {α : Type} (n : Nat) (xs ys : List α) :
    List.take n (xs ++ List.take n ys) = List.take n (xs ++ ys) := by
  rw [List.take_append_eq_append_take, List.take_take,
    Nat.min_eq_left (Nat.sub_le n xs.length), List.take_append_eq_append_take]

theorem rtake_append_rtake {α : Type} (n : Nat) (l l' : List α) :
    (l.rtake n ++ l').rtake n = (l ++ l').rtake n := by
  rw [List.rtake_eq_reverse_take_reverse, List.rtake_eq_reverse_take_reverse,
    List.rtake_eq_reverse_take_reverse]
  rw [List.reverse_append, List.reverse_reverse, List.reverse_append]
  rw [take_append_take]

theorem length_rtake_le {α : Type} (n : Nat) (l : List α) : (l.rtake n).length ≤ n := by
  rw [List.rtake_eq_reverse_take_reverse]
  simp only [List.length_reverse, List.length_take]
  exact Nat.min_le_left _ _

theorem saveChatHistory_eq_rtake (maxMessages : Nat) (h : 0 < maxMessages)
    (l : List ChatMessage) : saveChatHistory maxMessages l = l.rtake maxMessages := by
  simp only [saveChatHistory, jsSliceNeg, List.rtake]
  split
  · rw [if_neg (Nat.pos_iff_ne_zero.mp h)]
  · have hz : l.length - maxMessages = 0 := Nat.sub_eq_zero_of_le (Nat.le_of_not_lt (by omega))
    rw [hz, List.drop_zero]

theorem addToHistory_eq_rtake (maxMessages : Nat) (h : 0 < maxMessages)
    (hist : List ChatMessage) (m : ChatMessage) :
    addToHistory maxMessages hist m.role m.content = (hist ++ [m]).rtake maxMessages := by
  rw [addToHistory, saveChatHistory_eq_rtake maxMessages h]

theorem addAll_eq_rtake (maxMessages : Nat) (h : 0 < maxMessages) :
    ∀ (msgs : List ChatMessage) (h0 : List ChatMessage) (m : ChatMessage),
      addAll maxMessages h0 (m :: msgs) = (h0 ++ m :: msgs).rtake maxMessages := by
  intro msgs
  induction msgs with
  | nil =>
      intro h0 m
      simp only [addAll, List.foldl_cons, List.foldl_nil]
      rw [addToHistory_eq_rtake maxMessages h]
  | cons m' rest ih =>
      intro h0 m
      have step : addAll maxMessages h0 (m :: m' :: rest) =
          addAll maxMessages (addToHistory maxMessages h0 m.role m.content) (m' :: rest) := rfl
      rw [step, ih, addToHistory_eq_rtake maxMessages h, rtake_append_rtake]
      simp

/-- Claim C1: starting from any history, after each `addToHistory` call in a
nonempty sequence of appends the Conversation Store holds at most
`maxMessages` entries (for any positive configured cap, default 20), and the
retained entries are exactly the most recent ones of the full appended
sequence, in their original insertion order (`List.rtake`). -/
theorem history_cap_invariant (maxMessages : Nat) (hpos : 0 < maxMessages)
    (h0 : List ChatMessage) (m : ChatMessage) (msgs : List ChatMessage) :
    (addAll maxMessages h0 (m :: msgs)).length ≤ maxMessages ∧
    addAll maxMessages h0 (m :: msgs) = (h0 ++ m :: msgs).rtake maxMessages := by
  have he := addAll_eq_rtake maxMessages hpos msgs h0 m
  exact ⟨he ▸ length_rtake_le maxMessages _, he⟩

/-- Witness for C1 at the default cap 20: from a history already holding
20 entries, appending two more keeps the length at 20 and retains exactly
the most recent 20 entries. -/
theorem history_cap_invariant_witness :
    (addAll maxHistoryMessages (List.replicate 20 (⟨"old", "x"⟩ : ChatMessage))
        [⟨"user", "hi"⟩, ⟨"assistant", "yo"⟩]).length ≤ maxHistoryMessages ∧
    addAll maxHistoryMessages (List.replicate 20 (⟨"old", "x"⟩ : ChatMessage))
        [⟨"user", "hi"⟩, ⟨"assistant", "yo"⟩] =
      (List.replicate 20 (⟨"old", "x"⟩ : ChatMessage) ++
        ([⟨"user", "hi"⟩, ⟨"assistant", "yo"⟩] : List ChatMessage)).rtake maxHistoryMessages :=
  history_cap_invariant maxHistoryMessages (by decide)
    (List.replicate 20 (⟨"old", "x"⟩ : ChatMessage)) ⟨"user", "hi"⟩ [⟨"assistant", "yo"⟩]

/-- Claim C2 counterexample: from a starting history already at the cap
(20 entries), a failed `sendMessage` leaves 19 entries, not the starting 20:
the append truncated away the oldest entry before the rollback `pop`. -/
theorem rollback_length_cex :
    (sendMessageFailed 20 (List.replicate 20 (⟨"old", "x"⟩ : ChatMessage)) "u").length ≠
      (List.replicate 20 (⟨"old", "x"⟩ : ChatMessage)).length ∧
    (sendMessageFailed 20 (List.replicate 20 (⟨"old", "x"⟩ : ChatMessage)) "u").length = 19 ∧
    (List.replicate 20 (⟨"old", "x"⟩ : ChatMessage)).length = 20 := by
  refine ⟨by decide, rfl, rfl⟩

/-- Claim C2 (amended): if the starting history is strictly below the cap,
a failed `sendMessage` restores the store exactly: same length, the trailing
user entry removed, all earlier entries unchanged. (At the cap, the oldest
entry is also lost, as the counterexample shows.) -/
theorem rollback_restores (maxMessages : Nat) (h0 : List ChatMessage)
    (u : String) (h : h0.length < maxMessages) :
    sendMessageFailed maxMessages h0 u = h0 := by
  have h1 : (h0 ++ [(⟨"user", u⟩ : ChatMessage)]).length = h0.length + 1 := by simp
  have hno : ¬ (h0 ++ [(⟨"user", u⟩ : ChatMessage)]).length > maxMessages := by omega
  have h2 : addToHistory maxMessages h0 "user" u = h0 ++ [⟨"user", u⟩] := by
    simp only [addToHistory, saveChatHistory]
    rw [if_neg hno]
  rw [sendMessageFailed, h2, List.dropLast_concat]
  simp only [saveChatHistory]
  rw [if_neg (by omega)]

/-- Witness for C2 (amended) at a history of length 1 under cap 20. -/
theorem rollback_restores_witness :
    sendMessageFailed 20 [⟨"user", "a"⟩] "b" = [⟨"user", "a"⟩] :=
  rollback_restores 20 [⟨"user", "a"⟩] "b" (by decide)

/-! ## Local trial-counter Access Gate (the `SubscriptionService` variant
with `TRIAL_MESSAGE_LIMIT` and `TRIAL_DAYS`) -/

namespace LocalTrial

/-- `SUBSCRIPTION_CONFIG.TRIAL_MESSAGE_LIMIT`. -/
def TRIAL_MESSAGE_LIMIT : Nat := 20

/-- `SUBSCRIPTION_CONFIG.TRIAL_DAYS`. -/
def TRIAL_DAYS : Nat := 7

/-- The cached `/api/subscription-status` payload; only its `status` field
is read by the gate. -/
structure SubscriptionStatus where
  status : String
deriving DecidableEq, Repr

/-- `getMessagesRemaining`: `Math.max(0, TRIAL_MESSAGE_LIMIT - count)`,
with `count` the stored counter (`0` when absent). -/
def getMessagesRemaining (count : Nat) : Int :=
  max 0 ((TRIAL_MESSAGE_LIMIT : Int) - (count : Int))

/-- `trialStart + TRIAL_DAYS * 24 * 60 * 60 * 1000`, in milliseconds. -/
def trialEndTime (trialStart : Nat) : Nat :=
  trialStart + TRIAL_DAYS * 24 * 60 * 60 * 1000

/-- `isTrialExpired`: `false` when no trial-start is stored, else
`Date.now() > trialEndTime`. -/
def isTrialExpired (trialStart : Option Nat) (now : Nat) : Bool :=
  match trialStart with
  | none => false
  | some t => now > trialEndTime t

/-- `hasActiveSubscription`: the cached status object exists and its
`status` is `'trialing'` or `'active'`. -/
def hasActiveSubscription (subscriptionStatus : Option SubscriptionStatus) : Bool :=
  match subscriptionStatus with
  | none => false
  | some s => (s.status == "trialing") || (s.status == "active")

/-- `canSendMessage`: an active subscription always allows; otherwise the
trial must have messages remaining and not be expired. -/
def canSendMessage (subscriptionStatus : Option SubscriptionStatus)
    (count : Nat) (trialStart : Option Nat) (now : Nat) : Bool :=
  if hasActiveSubscription subscriptionStatus then true
  else decide (getMessagesRemaining count > 0) && !(isTrialExpired trialStart now)

/-- Claim C3 counterexample: with no active subscription, counter 0, and
`now` exactly `trialStart + 7` days (`604800000` ms past a start of `0`), the
code still allows sending, although `now ≥ trialStart + trialDuration`; the
claim as stated demands `false` here. -/
theorem canSend_boundary_cex :
    canSendMessage none 0 (some 0) 604800000 = true ∧
    604800000 ≥ 0 + 604800000 := by
  constructor
  · rfl
  · omega

/-- Claim C3 (amended): under the local trial-counter policy with no active
remote subscription and a stored trial start `t`, `canSendMessage` is `true`
exactly when the counter is below `TRIAL_MESSAGE_LIMIT` AND `now` is at most
`t` plus the trial duration; so it is `false` whenever `counter ≥ limit`
(regardless of time) and whenever `now` is strictly past the trial end
(regardless of the counter) — the boundary instant `now = t + duration`
still allows sending. -/
theorem canSend_characterization (subscriptionStatus : Option SubscriptionStatus)
    (count t now : Nat) (h : hasActiveSubscription subscriptionStatus = false) :
    canSendMessage subscriptionStatus count (some t) now =
      (decide (count < TRIAL_MESSAGE_LIMIT) && decide (now ≤ trialEndTime t)) := by
  simp only [canSendMessage, h, if_false, Bool.false_eq_true, isTrialExpired,
    getMessagesRemaining, TRIAL_MESSAGE_LIMIT]
  have h1 : (max 0 ((20 : Int) - (count : Int)) > 0) ↔ count < 20 := by omega
  have h2 : (!decide (now > trialEndTime t)) = decide (now ≤ trialEndTime t) := by
    rcases Nat.lt_or_ge (trialEndTime t) now with hlt | hle
    · simp [hlt, Nat.not_le.mpr hlt]
    · simp [Nat.not_lt.mpr hle, hle]
  rw [h2]
  congr 1
  exact decide_eq_decide.mpr h1

/-- Witness for C3 (amended): no cached subscription status, counter 5,
trial start 0, now 3 — the gate is open. -/
theorem canSend_characterization_witness :
    canSendMessage none 5 (some 0) 3 =
      (decide (5 < TRIAL_MESSAGE_LIMIT) && decide (3 ≤ trialEndTime 0)) :=
  canSend_characterization none 5 0 3 rfl

/-- Claim C4: a cached remote subscription status of `'active'` or
`'trialing'` makes `canSendMessage` `true` regardless of the local counter
and of whether the trial period has elapsed. -/
theorem activeSub_overrides (s : SubscriptionStatus) (count : Nat)
    (trialStart : Option Nat) (now : Nat)
    (h : s.status = "active" ∨ s.status = "trialing") :
    canSendMessage (some s) count trialStart now = true := by
  have hact : hasActiveSubscription (some s) = true := by
    rcases h with h | h <;> simp [hasActiveSubscription, h]
  simp [canSendMessage, hact]

/-- Witness for C4: status `'active'`, counter far over the limit (1000) and
`now` far past the trial end — the gate is still open. -/
theorem activeSub_overrides_witness :
    canSendMessage (some ⟨"active"⟩) 1000 (some 0) 999999999999 = true :=
  activeSub_overrides ⟨"active"⟩ 1000 (some 0) 999999999999 (Or.inl rfl)

end LocalTrial

/-! ## Anthropic request builder (`server.js` `callAnthropic`) -/

/-- The Anthropic wire request, as far as message placement goes: the
top-level `system` field and the `messages` array. -/
structure AnthropicRequest where
  system : String
  messages : List ChatMessage
deriving DecidableEq, Repr

/-- The body built by `callAnthropic` (server.js:87-102):
`system` is `messages.find(m => m.role === 'system')?.content || ''` and
`messages` is `messages.filter(m => m.role !== 'system')`. (When the found
content is itself `''`, the JavaScript `||` also yields `''`.) -/
def callAnthropicBody (messages : List ChatMessage) : AnthropicRequest :=
  { system :=
      match messages.find? (fun m => m.role == "system") with
      | some m => m.content
      | none => ""
    messages := messages.filter (fun m => !(m.role == "system")) }

/-- Claim C5: the Anthropic request places the first system-role message's
content (empty string if none) in the top-level `system` field, and its
`messages` array is exactly the input with every system-role entry removed,
in original order; in particular, for history `[{user, "hi"}]` with system
prompt `"S"`, the string `"S"` appears only in the top-level field and no
system entry appears in the array. -/
theorem anthropic_system_field :
    (∀ msgs : List ChatMessage, ∀ m ∈ (callAnthropicBody msgs).messages,
        m.role ≠ "system") ∧
    (∀ msgs : List ChatMessage,
        (callAnthropicBody msgs).messages = msgs.filter (fun m => !(m.role == "system"))) ∧
    (∀ (l1 l2 : List ChatMessage) (m : ChatMessage), m.role = "system" →
        (∀ x ∈ l1, x.role ≠ "system") →
        (callAnthropicBody (l1 ++ m :: l2)).system = m.content) ∧
    (∀ msgs : List ChatMessage, (∀ m ∈ msgs, m.role ≠ "system") →
        (callAnthropicBody msgs).system = "") ∧
    callAnthropicBody [⟨"system", "S"⟩, ⟨"user", "hi"⟩] =
      ⟨"S", [⟨"user", "hi"⟩]⟩ := by
  refine ⟨?_, ?_, ?_, ?_, ?_⟩
  · intro msgs m hm
    have := List.of_mem_filter hm
    simpa using this
  · intro msgs
    rfl
  · intro l1 l2 m hm hl1
    have hnone : l1.find? (fun m => m.role == "system") = none := by
      rw [List.find?_eq_none]
      intro x hx
      simpa using hl1 x hx
    have hfind : (l1 ++ m :: l2).find? (fun m => m.role == "system") = some m := by
      rw [List.find?_append, hnone]
      simp [hm]
    simp only [callAnthropicBody, hfind]
  · intro msgs hsys
    have hnone : msgs.find? (fun m => m.role == "system") = none := by
      rw [List.find?_eq_none]
      intro x hx
      simpa using hsys x hx
    simp only [callAnthropicBody, hnone]
  · rfl

/-- Witness for C5 at the concrete scenario from the spec: history
`[{system, "S"}, {user, "hi"}]`. -/
theorem anthropic_system_field_witness :
    callAnthropicBody [⟨"system", "S"⟩, ⟨"user", "hi"⟩] =
      ⟨"S", [⟨"user", "hi"⟩]⟩ :=
  anthropic_system_field.2.2.2.2

/-! ## Remote-verification Access Gate (`subscription-service.js`) -/

namespace Remote

/-- The access snapshot returned by `/api/verify-session` and cached in
`this.accessData`. -/
structure AccessData where
  valid : Bool
  canChat : Bool
  isPaid : Bool
  isTrialing : Bool
  messagesUsed : Int
  messagesRemaining : Int
  status : String
deriving DecidableEq, Repr

/-- The mutable fields of the `SubscriptionService` instance. -/
structure ServiceState where
  sessionId : Option String
  accessData : Option AccessData
  initialized : Bool
deriving DecidableEq, Repr

/-- The outcome of a `fetch` + `json()` round trip. -/
inductive FetchResult (α : Type) where
  | ok (data : α)
  | failure
deriving DecidableEq, Repr

/-- `canSendMessage` (subscription-service.js:90-93): `false` with no
snapshot, else `valid && canChat`. -/
def canSendMessage (s : ServiceState) : Bool :=
  match s.accessData with
  | none => false
  | some a => a.valid && a.canChat

/-- `getPaywallReason` (subscription-service.js:137-147). -/
def getPaywallReason (s : ServiceState) : Option String :=
  match s.accessData with
  | none => some "not_enrolled"
  | some a =>
    if !a.valid then some "not_enrolled"
    else if decide (a.messagesRemaining ≤ 0) && a.isTrialing then some "message_limit"
    else if (a.status == "canceled") || (a.status == "past_due") then some "subscription_ended"
    else none

/-- `verifyAccess` (subscription-service.js:64-84). With no session id it
returns a `{valid:false}` object without touching `accessData`; on a
successful fetch it replaces `accessData` with the server payload and
returns it; in the `catch` branch it returns `{valid:false}` and leaves
`accessData` untouched. The returned `{valid:false, error}` objects are
modelled as `none`, the returned payload as `some data`. -/
def verifyAccess (s : ServiceState) (net : FetchResult AccessData) :
    ServiceState × Option AccessData :=
  match s.sessionId with
  | none => (s, none)
  | some _ =>
    match net with
    | .ok data => ({ s with accessData := some data }, some data)
    | .failure => (s, none)

/-- The `/api/track-message` response shape. -/
structure TrackResponse where
  success : Bool
  messagesUsed : Int
  messagesRemaining : Int
  limitReached : Bool
deriving DecidableEq, Repr

/-- `recordMessage` (subscription-service.js:107-132): with no session id it
returns an error object; on fetch failure the `catch` branch returns an
error object; on a response, `accessData` is updated only when it is
non-null and `data.success` is truthy. -/
def recordMessage (s : ServiceState) (net : FetchResult TrackResponse) :
    ServiceState × Option TrackResponse :=
  match s.sessionId with
  | none => (s, none)
  | some _ =>
    match net with
    | .failure => (s, none)
    | .ok data =>
      match s.accessData, data.success with
      | some a, true =>
          ({ s with accessData := some { a with
              messagesUsed := data.messagesUsed,
              messagesRemaining := data.messagesRemaining,
              canChat := !data.limitReached } }, some data)
      | some _, false => (s, some data)
      | none, _ => (s, some data)

/-- JavaScript truthiness of a string-or-null value: `null` and `''` are
falsy. -/
def jsTruthy : Option String → Bool
  | none => false
  | some s => !(s == "")

/-- The observable effects of one `init()` call (subscription-service.js:
30-51): the new instance state, the persisted session id after the call,
whether `history.replaceState` stripped the query string, whether
`localStorage.setItem` was called, and the returned `this.accessData`. -/
structure InitResult where
  state : ServiceState
  storage : Option String
  urlCleaned : Bool
  wroteStorage : Bool
  ret : Option AccessData
deriving DecidableEq, Repr

/-- `init` (subscription-service.js:30-51), with the page URL's
`session_id` and `status` query parameters and the previously persisted
session id passed explicitly. -/
def init (s : ServiceState) (urlSessionId urlStatus storedSessionId : Option String) :
    InitResult :=
  if s.initialized then
    { state := s, storage := storedSessionId, urlCleaned := false,
      wroteStorage := false, ret := s.accessData }
  else if jsTruthy urlSessionId && (urlStatus == some "success") then
    { state := { s with sessionId := urlSessionId, initialized := true },
      storage := urlSessionId, urlCleaned := true,
      wroteStorage := true, ret := s.accessData }
  else
    { state := { s with sessionId := storedSessionId, initialized := true },
      storage := storedSessionId, urlCleaned := false,
      wroteStorage := false, ret := s.accessData }

/-- Claim C6 counterexample: a network failure during `verifyAccess` does
not fail closed when a prior successful verification left a granting
snapshot — `accessData` is untouched by the `catch` branch, so
`canSendMessage()` still returns `true`. -/
theorem verify_fail_open_cex :
    canSendMessage (verifyAccess
      { sessionId := some "sess",
        accessData := some
          { valid := true, canChat := true, isPaid := true,
            isTrialing := false, messagesUsed := 0, messagesRemaining := 0,
            status := "active" },
        initialized := true } .failure).1 = true := rfl

/-- Claim C6 (amended): verification failure never grants access that the
stored snapshot did not already grant. If before the attempt the snapshot is
absent or marked invalid, then after a no-session early return or a network
failure (both of which leave the snapshot untouched) `canSendMessage()` is
`false` and `getPaywallReason()` is `'not_enrolled'`; and a server response
with `valid:false` always replaces the snapshot and yields a blocked gate
with reason `'not_enrolled'`. -/
theorem verify_fail_closed :
    (∀ (s : ServiceState) (net : FetchResult AccessData),
       (s.accessData = none ∨ ∃ a, s.accessData = some a ∧ a.valid = false) →
       (s.sessionId = none ∨ net = .failure) →
       canSendMessage (verifyAccess s net).1 = false ∧
       getPaywallReason (verifyAccess s net).1 = some "not_enrolled") ∧
    (∀ (s : ServiceState) (sid : String) (d : AccessData),
       s.sessionId = some sid → d.valid = false →
       canSendMessage (verifyAccess s (.ok d)).1 = false ∧
       getPaywallReason (verifyAccess s (.ok d)).1 = some "not_enrolled") := by
  constructor
  · intro s net hsnap hfail
    have hstate : (verifyAccess s net).1 = s := by
      rcases hfail with hsid | hnet
      · simp [verifyAccess, hsid]
      · subst hnet
        cases hs : s.sessionId <;> simp [verifyAccess, hs]
    rw [hstate]
    rcases hsnap with hnone | ⟨a, ha, hv⟩
    · simp [canSendMessage, getPaywallReason, hnone]
    · simp [canSendMessage, getPaywallReason, ha, hv]
  · intro s sid d hsid hv
    have hstate : (verifyAccess s (.ok d)).1 = { s with accessData := some d } := by
      simp [verifyAccess, hsid]
    rw [hstate]
    simp [canSendMessage, getPaywallReason, hv]

/-- Witness for C6 (amended): a fresh state (no snapshot, no session) after
a network failure is blocked with reason `'not_enrolled'`. -/
theorem verify_fail_closed_witness :
    canSendMessage (verifyAccess
      { sessionId := none, accessData := none, initialized := true } .failure).1 = false ∧
    getPaywallReason (verifyAccess
      { sessionId := none, accessData := none, initialized := true } .failure).1 =
      some "not_enrolled" :=
  verify_fail_closed.1
    { sessionId := none, accessData := none, initialized := true } .failure
    (Or.inl rfl) (Or.inl rfl)

/-- Claim C7 counterexample: a snapshot with `valid:true`, `canChat:false`,
`isTrialing:false`, `messagesRemaining:5`, `status:'active'` blocks the gate
(`canSendMessage` is `false`) yet `getPaywallReason()` returns `null`. -/
theorem paywall_null_cex :
    canSendMessage
      { sessionId := some "sess",
        accessData := some
          { valid := true, canChat := false, isPaid := true,
            isTrialing := false, messagesUsed := 0, messagesRemaining := 5,
            status := "active" },
        initialized := true } = false ∧
    getPaywallReason
      { sessionId := some "sess",
        accessData := some
          { valid := true, canChat := false, isPaid := true,
            isTrialing := false, messagesUsed := 0, messagesRemaining := 5,
            status := "active" },
        initialized := true } = none := by
  constructor
  · rfl
  · rfl

/-- Claim C7 (amended): whenever `canSendMessage()` is `false`,
`getPaywallReason()` returns one of `'not_enrolled'`, `'message_limit'`,
`'subscription_ended'` — or `null`, the `null` case occurring exactly for
blocked snapshots that are `valid` but where neither trialing-with-no-
messages-remaining nor a `canceled`/`past_due` status holds. -/
theorem paywall_reason_blocked (s : ServiceState)
    (h : canSendMessage s = false) :
    getPaywallReason s = some "not_enrolled" ∨
    getPaywallReason s = some "message_limit" ∨
    getPaywallReason s = some "subscription_ended" ∨
    (getPaywallReason s = none ∧
      ∃ a, s.accessData = some a ∧ a.valid = true ∧ a.canChat = false ∧
        ¬(a.messagesRemaining ≤ 0 ∧ a.isTrialing = true) ∧
        a.status ≠ "canceled" ∧ a.status ≠ "past_due") := by
  match ha : s.accessData with
  | none =>
      left
      simp [getPaywallReason, ha]
  | some a =>
      match hv : a.valid with
      | false =>
          left
          simp [getPaywallReason, ha, hv]
      | true =>
          have hc : a.canChat = false := by
            simp only [canSendMessage, ha, hv, Bool.true_and] at h
            exact h
          by_cases h1 : a.messagesRemaining ≤ 0 ∧ a.isTrialing = true
          · right; left
            simp [getPaywallReason, ha, hv, h1.1, h1.2]
          · by_cases h2 : a.status = "canceled" ∨ a.status = "past_due"
            · right; right; left
              have hml : ¬(decide (a.messagesRemaining ≤ 0) && a.isTrialing) = true := by
                simp only [Bool.and_eq_true, decide_eq_true_eq]
                intro hcontra
                exact h1 ⟨hcontra.1, hcontra.2⟩
              simp only [getPaywallReason, ha, hv, Bool.not_true, Bool.false_eq_true,
                if_false, hml, if_neg hml]
              rcases h2 with h2 | h2 <;> simp [h2]
            · right; right; right
              push_neg at h2
              have hml : ¬(decide (a.messagesRemaining ≤ 0) && a.isTrialing) = true := by
                simp only [Bool.and_eq_true, decide_eq_true_eq]
                intro hcontra
                exact h1 ⟨hcontra.1, hcontra.2⟩
              have hst : ¬((a.status == "canceled") || (a.status == "past_due")) = true := by
                simp only [Bool.or_eq_true, beq_iff_eq]
                intro hcontra
                rcases hcontra with hx | hx
                · exact h2.1 hx
                · exact h2.2 hx
              refine ⟨?_, a, rfl, hv, hc, h1, h2.1, h2.2⟩
              simp only [getPaywallReason, ha, hv, Bool.not_true, Bool.false_eq_true,
                if_false, if_neg hml, if_neg hst]

/-- Witness for C7 (amended): a state with no snapshot is blocked and gets
reason `'not_enrolled'`. -/
theorem paywall_reason_blocked_witness :
    getPaywallReason { sessionId := none, accessData := none, initialized := false }
        = some "not_enrolled" ∨
    getPaywallReason { sessionId := none, accessData := none, initialized := false }
        = some "message_limit" ∨
    getPaywallReason { sessionId := none, accessData := none, initialized := false }
        = some "subscription_ended" ∨
    (getPaywallReason { sessionId := none, accessData := none, initialized := false }
        = none ∧
      ∃ a, (none : Option AccessData) = some a ∧ a.valid = true ∧ a.canChat = false ∧
        ¬(a.messagesRemaining ≤ 0 ∧ a.isTrialing = true) ∧
        a.status ≠ "canceled" ∧ a.status ≠ "past_due") :=
  paywall_reason_blocked
    { sessionId := none, accessData := none, initialized := false } rfl

/-- Claim C9: with a session and a non-null snapshot, a `recordMessage`
response with `success:true` makes the snapshot's `canChat` the negation of
the response's `limitReached` — so when `limitReached` is `true`,
`canSendMessage()` is `false` on the very next call with no intervening
`verifyAccess()`; a response without `success` or a failed request leaves
the snapshot (indeed the whole state) unchanged. -/
theorem recordMessage_limit_sync (s : ServiceState) (sid : String)
    (a : AccessData) (d : TrackResponse)
    (hsid : s.sessionId = some sid) (ha : s.accessData = some a) :
    (d.success = true →
      (recordMessage s (.ok d)).1.accessData = some
        { a with messagesUsed := d.messagesUsed,
                 messagesRemaining := d.messagesRemaining,
                 canChat := !d.limitReached } ∧
      (d.limitReached = true →
        canSendMessage (recordMessage s (.ok d)).1 = false)) ∧
    (d.success = false → (recordMessage s (.ok d)).1 = s) ∧
    (recordMessage s .failure).1 = s := by
  refine ⟨?_, ?_, ?_⟩
  · intro hsucc
    have hstate : (recordMessage s (.ok d)).1 =
        { s with accessData := some
                   { a with messagesUsed := d.messagesUsed,
                            messagesRemaining := d.messagesRemaining,
                            canChat := !d.limitReached } } := by
      simp [recordMessage, hsid, ha, hsucc]
    refine ⟨by rw [hstate], ?_⟩
    intro hlim
    rw [hstate]
    simp [canSendMessage, hlim]
  · intro hfailed
    simp [recordMessage, hsid, ha, hfailed]
  · simp [recordMessage, hsid]

/-- Witness for C9: a trial snapshot hits the limit (`limitReached:true`):
the updated snapshot has `canChat := false` and the gate closes at once. -/
theorem recordMessage_limit_sync_witness :
    ((true : Bool) = true →
      (recordMessage
        { sessionId := some "sess",
          accessData := some
            { valid := true, canChat := true, isPaid := false,
              isTrialing := true, messagesUsed := 19, messagesRemaining := 1,
              status := "trialing" },
          initialized := true }
        (.ok { success := true, messagesUsed := 20, messagesRemaining := 0,
               limitReached := true })).1.accessData = some
        { valid := true, canChat := !(true : Bool), isPaid := false,
          isTrialing := true, messagesUsed := 20, messagesRemaining := 0,
          status := "trialing" } ∧
      ((true : Bool) = true →
        canSendMessage (recordMessage
          { sessionId := some "sess",
            accessData := some
              { valid := true, canChat := true, isPaid := false,
                isTrialing := true, messagesUsed := 19, messagesRemaining := 1,
                status := "trialing" },
            initialized := true }
          (.ok { success := true, messagesUsed := 20, messagesRemaining := 0,
                 limitReached := true })).1 = false)) ∧
    ((true : Bool) = false → (recordMessage
        { sessionId := some "sess",
          accessData := some
            { valid := true, canChat := true, isPaid := false,
              isTrialing := true, messagesUsed := 19, messagesRemaining := 1,
              status := "trialing" },
          initialized := true }
        (.ok { success := true, messagesUsed := 20, messagesRemaining := 0,
               limitReached := true })).1 =
      { sessionId := some "sess",
        accessData := some
          { valid := true, canChat := true, isPaid := false,
            isTrialing := true, messagesUsed := 19, messagesRemaining := 1,
            status := "trialing" },
        initialized := true }) ∧
    (recordMessage
        { sessionId := some "sess",
          accessData := some
            { valid := true, canChat := true, isPaid := false,
              isTrialing := true, messagesUsed := 19, messagesRemaining := 1,
              status := "trialing" },
          initialized := true } .failure).1 =
      { sessionId := some "sess",
        accessData := some
          { valid := true, canChat := true, isPaid := false,
            isTrialing := true, messagesUsed := 19, messagesRemaining := 1,
            status := "trialing" },
        initialized := true } :=
  recordMessage_limit_sync
    { sessionId := some "sess",
      accessData := some
        { valid := true, canChat := true, isPaid := false,
          isTrialing := true, messagesUsed := 19, messagesRemaining := 1,
          status := "trialing" },
      initialized := true }
    "sess"
    { valid := true, canChat := true, isPaid := false,
      isTrialing := true, messagesUsed := 19, messagesRemaining := 1,
      status := "trialing" }
    { success := true, messagesUsed := 20, messagesRemaining := 0,
      limitReached := true }
    rfl rfl

/-- Claim C8 counterexample: on a first `init()` with URL query
`?session_id=&status=success` the `session_id` parameter is present (with an
empty value) and `status` equals `'success'`, yet no `localStorage` write
happens and the URL is not cleaned: the empty string is falsy in the
JavaScript guard. -/
theorem init_empty_param_cex :
    (init { sessionId := none, accessData := none, initialized := false }
        (some "") (some "success") none).wroteStorage = false ∧
    (init { sessionId := none, accessData := none, initialized := false }
        (some "") (some "success") none).urlCleaned = false ∧
    (some "" : Option String) ≠ none := by
  refine ⟨rfl, rfl, by decide⟩

/-- Claim C8 (amended): on a first `init()`, the session id is persisted and
the query string stripped if and only if the `session_id` parameter carries
a non-empty value (JavaScript-truthy) and `status` equals `'success'`; in
that case the stored and instance session id are the URL's; in every other
case nothing is written, the URL is untouched, and the session id is read
from prior storage. -/
theorem init_checkout_capture (s : ServiceState) (u v w : Option String)
    (h : s.initialized = false) :
    (((init s u v w).wroteStorage = true ∧ (init s u v w).urlCleaned = true) ↔
      (jsTruthy u = true ∧ v = some "success")) ∧
    (jsTruthy u = true ∧ v = some "success" →
      (init s u v w).state.sessionId = u ∧ (init s u v w).storage = u) ∧
    (¬(jsTruthy u = true ∧ v = some "success") →
      (init s u v w).wroteStorage = false ∧ (init s u v w).urlCleaned = false ∧
      (init s u v w).state.sessionId = w ∧ (init s u v w).storage = w) := by
  by_cases hcond : jsTruthy u = true ∧ v = some "success"
  · have hguard : (jsTruthy u && (v == some "success")) = true := by
      simp [hcond.1, hcond.2]
    have hres : init s u v w =
        { state := { s with sessionId := u, initialized := true },
          storage := u, urlCleaned := true,
          wroteStorage := true, ret := s.accessData } := by
      simp [init, h, hguard]
    rw [hres]
    refine ⟨⟨fun _ => hcond, fun _ => ⟨rfl, rfl⟩⟩, fun _ => ⟨rfl, rfl⟩, fun hc => absurd hcond hc⟩
  · have hguard : (jsTruthy u && (v == some "success")) = false := by
      by_cases hu : jsTruthy u = true
      · have hv : v ≠ some "success" := fun hv => hcond ⟨hu, hv⟩
        rw [hu, Bool.true_and, beq_eq_false_iff_ne]
        exact hv
      · rw [Bool.not_eq_true] at hu
        rw [hu, Bool.false_and]
    have hres : init s u v w =
        { state := { s with sessionId := w, initialized := true },
          storage := w, urlCleaned := false,
          wroteStorage := false, ret := s.accessData } := by
      simp [init, h, hguard]
    rw [hres]
    refine ⟨⟨fun hcontra => absurd hcontra.1 (by simp), fun hcontra => absurd hcontra hcond⟩,
      fun hcontra => absurd hcontra hcond, fun _ => ⟨rfl, rfl, rfl, rfl⟩⟩

/-- Witness for C8 (amended) on a fresh state with URL query
`?session_id=cs_123&status=success` and empty prior storage. -/
theorem init_checkout_capture_witness :
    ((((init { sessionId := none, accessData := none, initialized := false }
        (some "cs_123") (some "success") none).wroteStorage = true ∧
      (init { sessionId := none, accessData := none, initialized := false }
        (some "cs_123") (some "success") none).urlCleaned = true) ↔
      (jsTruthy (some "cs_123") = true ∧ (some "success" : Option String) = some "success")) ∧
    (jsTruthy (some "cs_123") = true ∧ (some "success" : Option String) = some "success" →
      (init { sessionId := none, accessData := none, initialized := false }
        (some "cs_123") (some "success") none).state.sessionId = some "cs_123" ∧
      (init { sessionId := none, accessData := none, initialized := false }
        (some "cs_123") (some "success") none).storage = some "cs_123") ∧
    (¬(jsTruthy (some "cs_123") = true ∧ (some "success" : Option String) = some "success") →
      (init { sessionId := none, accessData := none, initialized := false }
        (some "cs_123") (some "success") none).wroteStorage = false ∧
      (init { sessionId := none, accessData := none, initialized := false }
        (some "cs_123") (some "success") none).urlCleaned = false ∧
      (init { sessionId := none, accessData := none, initialized := false }
        (some "cs_123") (some "success") none).state.sessionId = none ∧
      (init { sessionId := none, accessData := none, initialized := false }
        (some "cs_123") (some "success") none).storage = none)) :=
  init_checkout_capture
    { sessionId := none, accessData := none, initialized := false }
    (some "cs_123") (some "success") none rfl

/-- Claim C10: once initialized, a second `init()` call returns the current
`accessData` and changes nothing: same instance state, same persisted
storage, no write, no URL change — and the result does not depend on the
URL's query parameters at all (no reads of the URL matter). -/
theorem init_idempotent (s : ServiceState) (u v w : Option String)
    (h : s.initialized = true) :
    init s u v w =
      { state := s, storage := w, urlCleaned := false,
        wroteStorage := false, ret := s.accessData } ∧
    (∀ u' v' : Option String, init s u v w = init s u' v' w) := by
  constructor
  · simp [init, h]
  · intro u' v'
    simp [init, h]

/-- Witness for C10: an already-initialized state with a checkout-style URL
still changes nothing on `init()`. -/
theorem init_idempotent_witness :
    init { sessionId := some "cs_9", accessData := none, initialized := true }
        (some "cs_other") (some "success") (some "cs_9") =
      { state := { sessionId := some "cs_9", accessData := none, initialized := true },
        storage := some "cs_9", urlCleaned := false,
        wroteStorage := false, ret := none } ∧
    (∀ u' v' : Option String,
      init { sessionId := some "cs_9", accessData := none, initialized := true }
          (some "cs_other") (some "success") (some "cs_9") =
        init { sessionId := some "cs_9", accessData := none, initialized := true }
          u' v' (some "cs_9")) :=
  init_idempotent
    { sessionId := some "cs_9", accessData := none, initialized := true }
    (some "cs_other") (some "success") (some "cs_9") rfl

end Remote
